import Mathlib

/-! Verification of the Synthesis single-node container orchestrator.

The definitions below are shallow embeddings of the Go source:
* `pkg/server/controllers.go` — workload and service reconcilers;
* `pkg/server` (server.go) — HTTP handlers, state maps, defaulting,
  `loadState`, node status loop;
* `pkg/storage` (file.go) — file-backed snapshot store;
* `pkg/runtime/docker/docker.go` and `pkg/runtime/containerd/containerd.go`
  — runtime drivers (labels, filters, resource-limit parsing).

Go maps are embedded as association lists with last-writer-wins insert;
Go `int64` arithmetic is embedded as `Int` with explicit reduction into
the signed 64-bit range where overflow matters.
-/

namespace Synthesis

/-! Section: Association lists (Go `map[string]V` embedding) -/

/-- Lookup in an association list; mirrors Go `v, ok := m[k]`. -/
def lookupAL {α : Type} : List (String × α) → String → Option α
  | [], _ => none
  | (k', v) :: rest, k => if k' = k then some v else lookupAL rest k

/-- Insert/replace in an association list; mirrors Go `m[k] = v`. -/
def insertAL {α : Type} : List (String × α) → String → α → List (String × α)
  | [], k, v => [(k, v)]
  | (k', v') :: rest, k, v =>
    if k' = k then (k, v) :: rest else (k', v') :: insertAL rest k v

/-- Update the value at an existing key, leaving the list unchanged when the
key is absent; mirrors Go `if x, ok := m[k]; ok { mutate x }`. -/
def updateAL {α : Type} : List (String × α) → String → (α → α) → List (String × α)
  | [], _, _ => []
  | (k', v) :: rest, k, f =>
    if k' = k then (k', f v) :: rest else (k', v) :: updateAL rest k f

theorem lookupAL_insertAL_self {α : Type} (m : List (String × α)) (k : String) (v : α) :
    lookupAL (insertAL m k v) k = some v := by
  induction m with
  | nil => simp [insertAL, lookupAL]
  | cons hd tl ih =>
    obtain ⟨k', v'⟩ := hd
    by_cases h : k' = k
    · simp [insertAL, lookupAL, h]
    · simp [insertAL, lookupAL, h, ih]

theorem lookupAL_insertAL_ne {α : Type} (m : List (String × α)) (k k' : String) (v : α)
    (h : k' ≠ k) : lookupAL (insertAL m k v) k' = lookupAL m k' := by
  have hk : ¬k = k' := fun hh => h hh.symm
  induction m with
  | nil => simp [insertAL, lookupAL, hk]
  | cons hd tl ih =>
    obtain ⟨k₀, v₀⟩ := hd
    by_cases h₀ : k₀ = k
    · subst h₀
      have hk₀ : ¬k₀ = k' := hk
      simp [insertAL, lookupAL, hk₀]
    · by_cases h₁ : k₀ = k'
      · simp [insertAL, lookupAL, h₀, h₁, h]
      · simp [insertAL, lookupAL, h₀, h₁, ih]

theorem updateAL_of_lookup_none {α : Type} (m : List (String × α)) (k : String)
    (f : α → α) (h : lookupAL m k = none) : updateAL m k f = m := by
  induction m with
  | nil => rfl
  | cons hd tl ih =>
    obtain ⟨k', v⟩ := hd
    by_cases hk : k' = k
    · simp [lookupAL, hk] at h
    · simp [lookupAL, hk] at h
      simp [updateAL, hk, ih h]

/-! Section: Signed 64-bit integer arithmetic (Go `int64` embedding) -/

/-- Reduce an unbounded integer into the signed 64-bit range, as Go `int64`
multiplication does on overflow. -/
def int64wrap (n : Int) : Int := (n + 2 ^ 63) % 2 ^ 64 - 2 ^ 63

/-- The signed 64-bit range check used by Go `strconv.ParseInt(s, 10, 64)`. -/
def fitsInt64 (n : Int) : Prop := -(2 ^ 63) ≤ n ∧ n < 2 ^ 63

instance (n : Int) : Decidable (fitsInt64 n) := by
  unfold fitsInt64; infer_instance

theorem int64wrap_of_fits (n : Int) (h : fitsInt64 n) : int64wrap n = n := by
  obtain ⟨h₁, h₂⟩ := h
  unfold int64wrap
  omega

/-! Section: Decimal integer parsing (Go `strconv.ParseInt(s, 10, 64)` embedding) -/

/-- One decimal digit; mirrors the per-character step of Go `strconv.ParseInt`. -/
def digitVal : Char → Option Nat := fun c =>
  if 48 ≤ c.toNat ∧ c.toNat ≤ 57 then some (c.toNat - 48) else none

/-- Parse a non-empty run of decimal digits. -/
def parseDigits : List Char → Option Nat
  | [] => none
  | [c] => digitVal c
  | c :: rest => do
    let d ← digitVal c
    let n ← parseDigits rest
    pure (d * 10 ^ rest.length + n)

/-- Strip the optional leading sign, as Go `strconv.ParseInt` does. -/
def splitSign (cs : List Char) : Int × List Char :=
  match cs with
  | [] => (1, [])
  | c :: rest =>
    if c = '+' then (1, rest)
    else if c = '-' then (-1, rest)
    else (1, c :: rest)

/-- Go `strconv.ParseInt(s, 10, 64)`: optional sign, decimal digits,
signed 64-bit range check (out-of-range input is an error). -/
def goParseInt64 (s : String) : Option Int :=
  match parseDigits (splitSign s.data).2 with
  | none => none
  | some n =>
    if fitsInt64 ((splitSign s.data).1 * n) then some ((splitSign s.data).1 * n)
    else none

/-! Section: Memory limit parsing
(`parseMemoryLimit` in `pkg/runtime/docker/docker.go` and, textually
identical, in `pkg/runtime/containerd/containerd.go`) -/

/-- Go `strings.HasSuffix` on the underlying characters. -/
def hasSuffix (cs suf : List Char) : Bool :=
  decide (suf.length ≤ cs.length) && (cs.drop (cs.length - suf.length) == suf)

/-- The suffix split performed by `parseMemoryLimit`: returns the multiplier
together with the string left after stripping the recognized suffix. -/
def memSplit (cs : List Char) : Int × List Char :=
  if hasSuffix cs ['K', 'i'] then (1024, cs.take (cs.length - 2))
  else if hasSuffix cs ['M', 'i'] then (1024 * 1024, cs.take (cs.length - 2))
  else if hasSuffix cs ['G', 'i'] then (1024 * 1024 * 1024, cs.take (cs.length - 2))
  else (1, cs)

namespace Docker

/-- Embeds `(d *DockerRuntime) parseMemoryLimit` from `pkg/runtime/docker/docker.go`:
strip an optional `Ki`/`Mi`/`Gi` suffix, parse the remainder as a decimal
`int64`, and return the product `mem * multiplier` as Go `int64` arithmetic
computes it (wrapping on overflow). -/
def parseMemoryLimit (s : String) : Option Int :=
  let split := memSplit s.data
  match goParseInt64 (String.mk split.2) with
  | none => none
  | some mem => some (int64wrap (mem * split.1))

end Docker

namespace Containerd

/-- Embeds `(c *ContainerdRuntime) parseMemoryLimit` from
`pkg/runtime/containerd/containerd.go`; the body is textually identical to
the docker driver's. -/
def parseMemoryLimit (s : String) : Option Int :=
  let split := memSplit s.data
  match goParseInt64 (String.mk split.2) with
  | none => none
  | some mem => some (int64wrap (mem * split.1))

end Containerd

/-! Section: Runtime data model (`pkg/runtime/interface.go`) -/

/-- The slice of `api.Container` the reconciler consumes: name and image
(env/ports/resources do not influence the reconciler's decisions). -/
structure ContainerSpec where
  name : String
  image : String
deriving DecidableEq

/-- Embeds `runtime.ContainerInfo` (fields used by the server and reconcilers). -/
structure ContainerInfo where
  id : String
  name : String
  image : String := ""
  status : String := ""
  labels : List (String × String) := []
deriving DecidableEq

/-- Embeds `runtime.ContainerFilter`. -/
structure ContainerFilter where
  labels : List (String × String) := []
  names : List String := []
  status : List String := []
deriving DecidableEq

/-- Go map indexing on labels: absent keys yield the zero value `""`. -/
def labelGet (labels : List (String × String)) (k : String) : String :=
  (lookupAL labels k).getD ""

/-- Go `strings.Contains` on the underlying characters. -/
def listContains (cs sub : List Char) : Bool :=
  (List.range (cs.length + 1)).any fun i => (cs.drop i).take sub.length == sub

namespace Containerd

/-- Embeds `(c *ContainerdRuntime) matchesFilters` from
`pkg/runtime/containerd/containerd.go`: label equality uses Go map indexing
(absent key reads as `""`), name filters are substring matches, status
filters are membership. -/
def matchesFilters (info : ContainerInfo) (filters : ContainerFilter) : Bool :=
  filters.labels.all (fun kv => labelGet info.labels kv.1 == kv.2) &&
  (filters.names.isEmpty || filters.names.any fun n => listContains info.name.data n.data) &&
  (filters.status.isEmpty || filters.status.any fun st => info.status == st)

/-- The labels applied by `(c *ContainerdRuntime) CreateContainer`
(`WithContainerLabels` call, `pkg/runtime/containerd/containerd.go`). -/
def createLabels (podName specName : String) : List (String × String) :=
  [("synthesis.pod", podName), ("synthesis.container", specName),
   ("managed-by", "synthesis")]

end Containerd

namespace Docker

/-- The labels applied by `(d *DockerRuntime) CreateContainer`
(`pkg/runtime/docker/docker.go`): the two synthesis labels, then the
configured default labels merged in. -/
def createLabels (podName specName : String)
    (defaultLabels : List (String × String)) : List (String × String) :=
  defaultLabels.foldl (fun ls kv => insertAL ls kv.1 kv.2)
    [("synthesis.pod", podName), ("synthesis.container", specName)]

end Docker

/-- The default labels configured by `initConfig` in
`cmd/synthesis-server/main.go`. -/
def mainDefaultLabels : List (String × String) := [("managed-by", "synthesis")]

/-! Section: Workload reconciler (`pkg/server/controllers.go`) -/

/-- An imperative command issued to the runtime during one reconcile pass. -/
inductive RuntimeCmd where
  | pullImage (image : String)
  | createContainer (specName image podName : String)
  | startContainer (id : String)
  | stopContainer (id : String) (timeoutSeconds : Int)
  | removeContainer (id : String)
deriving DecidableEq

/-- The label filter `reconcileDeployment` lists containers with. -/
def deploymentFilter (name : String) : ContainerFilter :=
  { labels := [("synthesis.deployment", name)] }

/-- The label filter `reconcileStatefulSet` lists containers with. -/
def statefulsetFilter (name : String) : ContainerFilter :=
  { labels := [("synthesis.statefulset", name)] }

/-- Embeds `createPodFromTemplate` (`pkg/server/controllers.go`): the pod name is
`fmt.Sprintf("%s-%d", workloadName, replica)`; for each template container
it pulls the image, creates, and starts (happy path; the created container's
id is its `<pod>-<container>` name as the containerd driver assigns it). -/
def createPodFromTemplate (workloadName : String) (template : List ContainerSpec)
    (replica : Nat) : List RuntimeCmd :=
  let podName := workloadName ++ "-" ++ toString replica
  template.flatMap fun cs =>
    [.pullImage cs.image, .createContainer cs.name cs.image podName,
     .startContainer (podName ++ "-" ++ cs.name)]

/-- Embeds `reconcileDeployment` (`pkg/server/controllers.go`), as the sequence of
runtime commands issued on the happy path given the listing result
`current`: replicas default to 1; scale-up creates pods at ordinals
`len(current) + i`; scale-down stops (30-second timeout) and removes the
first `excess` listed containers. -/
def reconcileDeployment (name : String) (replicas : Option Int)
    (template : List ContainerSpec) (current : List ContainerInfo) : List RuntimeCmd :=
  let desired := replicas.getD 1
  let cur : Int := current.length
  let up : List RuntimeCmd :=
    if cur < desired then
      (List.range (desired - cur).toNat).flatMap fun i =>
        createPodFromTemplate name template (current.length + i)
    else []
  let down : List RuntimeCmd :=
    if desired < cur then
      (current.take (cur - desired).toNat).flatMap fun c =>
        [.stopContainer c.id 30, .removeContainer c.id]
    else []
  up ++ down

/-- Embeds `reconcileStatefulSet` (`pkg/server/controllers.go`); the body matches
`reconcileDeployment` except for the owner label used for listing. -/
def reconcileStatefulSet (name : String) (replicas : Option Int)
    (template : List ContainerSpec) (current : List ContainerInfo) : List RuntimeCmd :=
  let desired := replicas.getD 1
  let cur : Int := current.length
  let up : List RuntimeCmd :=
    if cur < desired then
      (List.range (desired - cur).toNat).flatMap fun i =>
        createPodFromTemplate name template (current.length + i)
    else []
  let down : List RuntimeCmd :=
    if desired < cur then
      (current.take (cur - desired).toNat).flatMap fun c =>
        [.stopContainer c.id 30, .removeContainer c.id]
    else []
  up ++ down

/-- The pod names passed to `CreateContainer` in a command sequence. -/
def createdPods : List RuntimeCmd → List String
  | [] => []
  | .createContainer _ _ podName :: rest => podName :: createdPods rest
  | _ :: rest => createdPods rest

/-- Modelled from the spec's words, for comparison only: the lowest unused
ordinal slot in `[0, desired)` given the ordinals already in use. -/
def specLowestUnusedSlot (used : List Nat) (desired : Nat) : Option Nat :=
  (List.range desired).find? fun i => !(used.contains i)

/-! Section: Resource data model (`pkg/api`, re-exported Kubernetes types;
only the fields the server reads or writes) -/

/-- Embeds `api.Pod` (metadata fields the server touches). A `none`
creation timestamp embeds Go's zero `metav1.Time`. -/
structure Pod where
  apiVersion : String := ""
  kind : String := ""
  name : String
  creationTimestamp : Option Nat := none
deriving DecidableEq

/-- Embeds `api.Deployment`. -/
structure Deployment where
  apiVersion : String := ""
  kind : String := ""
  name : String
  creationTimestamp : Option Nat := none
  replicas : Option Int := none
  template : List ContainerSpec := []
deriving DecidableEq

/-- Embeds `api.StatefulSet`. -/
structure StatefulSet where
  apiVersion : String := ""
  kind : String := ""
  name : String
  creationTimestamp : Option Nat := none
  replicas : Option Int := none
  template : List ContainerSpec := []
deriving DecidableEq

/-- Embeds `api.ServiceType`. -/
inductive ServiceType where
  | clusterIP
  | nodePort
  | loadBalancer
  | externalName
deriving DecidableEq

/-- Embeds `api.Service`; `ingress` embeds `Status.LoadBalancer.Ingress` as the
list of ingress IPs. -/
structure Service where
  apiVersion : String := ""
  kind : String := ""
  name : String
  creationTimestamp : Option Nat := none
  selector : List (String × String) := []
  type : ServiceType := .clusterIP
  ingress : List String := []
deriving DecidableEq

/-- Embeds `api.Node` as `updateNodeStatus` builds it. -/
structure Node where
  name : String
  capacityCPU : Int
  capacityMemory : Int
  allocatableCPU : Int
  allocatableMemory : Int
  ready : Bool
  kernelVersion : String
  osImage : String
  runtimeVersion : String
  architecture : String
  operatingSystem : String
deriving DecidableEq

/-- Embeds `runtime.SystemInfo` (fields consumed by `updateNodeStatus`). -/
structure SystemInfo where
  ncpu : Int
  memTotal : Int
  kernelVersion : String := ""
  operatingSystem : String := ""
  architecture : String := ""
  runtimeVersion : String := ""
deriving DecidableEq

/-! Section: Service reconciler (`pkg/server/controllers.go`) -/

/-- Embeds `(c *ServiceController) matchesSelector`: every selector pair must equal
the container's label under Go map indexing (absent key reads as `""`). -/
def matchesSelector (containerLabels selector : List (String × String)) : Bool :=
  selector.all fun kv => labelGet containerLabels kv.1 == kv.2

/-- The `managed-by=synthesis` filter `findTargetContainers` lists with. -/
def managedFilter : ContainerFilter :=
  { labels := [("managed-by", "synthesis")] }

/-- Embeds `(c *ServiceController) findTargetContainers`: list the managed
containers (the deployed containerd driver evaluates the filter), then keep
those matching the selector. -/
def findTargetContainers (allContainers : List ContainerInfo)
    (selector : List (String × String)) : List ContainerInfo :=
  (allContainers.filter fun c => Containerd.matchesFilters c managedFilter).filter
    fun c => matchesSelector c.labels selector

/-- Embeds `(c *ServiceController) updateServiceStatus`: when the service is still
in the map, a NodePort service gets a single `127.0.0.1` ingress; every
other type leaves the stored status untouched. The target containers do not
flow into the status. -/
def updateServiceStatus (services : List (String × Service)) (service : Service)
    (_targets : List ContainerInfo) : List (String × Service) :=
  match lookupAL services service.name with
  | none => services
  | some _ =>
    if service.type = .nodePort then
      updateAL services service.name fun s => { s with ingress := ["127.0.0.1"] }
    else services

/-- Embeds `(c *ServiceController) reconcileService`: resolve the selector, then
update the stored status. -/
def reconcileService (services : List (String × Service))
    (allContainers : List ContainerInfo) (service : Service) : List (String × Service) :=
  let targets := findTargetContainers allContainers service.selector
  updateServiceStatus services service targets

/-! Section: File storage (`pkg/storage`, `FileStorage`) -/

/-- One kind's snapshot directory: `none` embeds a `ReadDir` failure; each
file is its name together with its parse result (`none` = unparseable). -/
structure SnapshotDir (α : Type) where
  entries : Option (List (String × Option α))

/-- Embeds `FileStorage.ListPods` / `ListDeployments` / ... : a directory read
failure is returned as an error; files that fail to parse are skipped. -/
def listKind {α : Type} (d : SnapshotDir α) : Except String (List α) :=
  match d.entries with
  | none => .error "failed to read directory"
  | some files => .ok (files.filterMap Prod.snd)

/-- The per-kind snapshot directories owned by `FileStorage`. -/
structure StoreDirs where
  pods : SnapshotDir Pod
  deployments : SnapshotDir Deployment
  statefulsets : SnapshotDir StatefulSet
  services : SnapshotDir Service
  nodes : SnapshotDir Node

/-! Section: Server state and handlers (`pkg/server`) -/

/-- The in-memory maps of `server.Server`. -/
structure ServerState where
  pods : List (String × Pod) := []
  deployments : List (String × Deployment) := []
  statefulsets : List (String × StatefulSet) := []
  services : List (String × Service) := []
  nodes : List (String × Node) := []
deriving DecidableEq

/-- A best-effort durable write requested from `storage.Storage`. -/
inductive StorageOp where
  | storePod (p : Pod)
  | storeDeployment (d : Deployment)
  | storeStatefulSet (s : StatefulSet)
  | storeService (s : Service)
  | storeNode (n : Node)
deriving DecidableEq

/-- Build an in-memory map from a loaded resource list (the `for` loops of
`loadState`). -/
def mapOfResources {α : Type} (name : α → String) (l : List α) : List (String × α) :=
  l.foldl (fun m x => insertAL m (name x) x) []

/-- Embeds `(s *Server) loadState`: list each of the four kinds in order and stop
with an error as soon as one listing fails; the nodes map is never
populated from disk. -/
def loadState (dirs : StoreDirs) : Except String ServerState :=
  match listKind dirs.pods with
  | .error e => .error ("failed to load pods: " ++ e)
  | .ok ps =>
    match listKind dirs.deployments with
    | .error e => .error ("failed to load deployments: " ++ e)
    | .ok ds =>
      match listKind dirs.statefulsets with
      | .error e => .error ("failed to load statefulsets: " ++ e)
      | .ok ss =>
        match listKind dirs.services with
        | .error e => .error ("failed to load services: " ++ e)
        | .ok svcs =>
          .ok { pods := mapOfResources Pod.name ps,
                deployments := mapOfResources Deployment.name ds,
                statefulsets := mapOfResources StatefulSet.name ss,
                services := mapOfResources Service.name svcs,
                nodes := [] }

/-- Embeds `(s *Server) setDefaultsForPod`; `now` stands for `time.Now()`. -/
def setDefaultsForPod (now : Nat) (p : Pod) : Pod :=
  { p with
    apiVersion := if p.apiVersion = "" then "v1" else p.apiVersion,
    kind := if p.kind = "" then "Pod" else p.kind,
    creationTimestamp := some (p.creationTimestamp.getD now) }

/-- Embeds `(s *Server) setDefaultsForDeployment`. -/
def setDefaultsForDeployment (now : Nat) (d : Deployment) : Deployment :=
  { d with
    apiVersion := if d.apiVersion = "" then "apps/v1" else d.apiVersion,
    kind := if d.kind = "" then "Deployment" else d.kind,
    creationTimestamp := some (d.creationTimestamp.getD now),
    replicas := some (d.replicas.getD 1) }

/-- Embeds `(s *Server) setDefaultsForStatefulSet`. -/
def setDefaultsForStatefulSet (now : Nat) (s : StatefulSet) : StatefulSet :=
  { s with
    apiVersion := if s.apiVersion = "" then "apps/v1" else s.apiVersion,
    kind := if s.kind = "" then "StatefulSet" else s.kind,
    creationTimestamp := some (s.creationTimestamp.getD now),
    replicas := some (s.replicas.getD 1) }

/-- Embeds `(s *Server) setDefaultsForService`. -/
def setDefaultsForService (now : Nat) (s : Service) : Service :=
  { s with
    apiVersion := if s.apiVersion = "" then "v1" else s.apiVersion,
    kind := if s.kind = "" then "Service" else s.kind,
    creationTimestamp := some (s.creationTimestamp.getD now) }

/-- Embeds `(s *Server) createPodHandler` after a successful manifest decode:
apply defaults, install into the in-memory map, request a best-effort
durable write, and answer 201 with the defaulted pod. `persistFails`
embeds the outcome of `storage.StorePod`; its only effect in the source is
a log line, so the state and response do not depend on it. -/
def createPodHandler (st : ServerState) (pod : Pod) (now : Nat)
    (_persistFails : Bool) : ServerState × List StorageOp × (Nat × Pod) :=
  let p := setDefaultsForPod now pod
  ({ st with pods := insertAL st.pods p.name p }, [.storePod p], (201, p))

/-- Embeds `(s *Server) createDeploymentHandler` after a successful decode;
`persistFails` embeds the outcome of `storage.StoreDeployment` (logged
only). -/
def createDeploymentHandler (st : ServerState) (d : Deployment) (now : Nat)
    (_persistFails : Bool) : ServerState × List StorageOp × (Nat × Deployment) :=
  let d' := setDefaultsForDeployment now d
  ({ st with deployments := insertAL st.deployments d'.name d' },
   [.storeDeployment d'], (201, d'))

/-- Embeds `(s *Server) updatePodHandler` after a successful decode: the URL name
overrides the manifest name, then the same install path as create. -/
def updatePodHandler (st : ServerState) (name : String) (pod : Pod) (now : Nat)
    (_persistFails : Bool) : ServerState × List StorageOp × (Nat × Pod) :=
  let p := setDefaultsForPod now { pod with name := name }
  ({ st with pods := insertAL st.pods name p }, [.storePod p], (200, p))

/-- Embeds `(s *Server) updateDeploymentHandler` after a successful decode. -/
def updateDeploymentHandler (st : ServerState) (name : String) (d : Deployment)
    (now : Nat) (_persistFails : Bool) :
    ServerState × List StorageOp × (Nat × Deployment) :=
  let d' := setDefaultsForDeployment now { d with name := name }
  ({ st with deployments := insertAL st.deployments name d' },
   [.storeDeployment d'], (200, d'))

/-- Embeds `(s *Server) getPodHandler`: `some` is a 200 with the pod, `none` a 404. -/
def getPodHandler (st : ServerState) (name : String) : Option Pod :=
  lookupAL st.pods name

/-- Embeds `(s *Server) getDeploymentHandler`. -/
def getDeploymentHandler (st : ServerState) (name : String) : Option Deployment :=
  lookupAL st.deployments name

/-- The body written by the scale handlers: always
`{kind: Scale, apiVersion: autoscaling/v1, spec: {replicas: <requested>}}`. -/
structure ScaleResponse where
  kind : String := "Scale"
  apiVersion : String := "autoscaling/v1"
  replicas : Int
deriving DecidableEq

/-- Embeds `(s *Server) scaleDeploymentHandler` after a successful decode: mutate
the replica count only when the deployment exists, request no durable
write, and always answer with the requested replica count. -/
def scaleDeploymentHandler (st : ServerState) (name : String) (replicas : Int) :
    ServerState × List StorageOp × ScaleResponse :=
  ({ st with deployments :=
      updateAL st.deployments name fun d => { d with replicas := some replicas } },
   [], { replicas := replicas })

/-- Embeds `(s *Server) scaleStatefulSetHandler` after a successful decode. -/
def scaleStatefulSetHandler (st : ServerState) (name : String) (replicas : Int) :
    ServerState × List StorageOp × ScaleResponse :=
  ({ st with statefulsets :=
      updateAL st.statefulsets name fun s => { s with replicas := some replicas } },
   [], { replicas := replicas })

/-! Section: Node status reporter (`runNodeController` / `updateNodeStatus`) -/

/-- The `api.Node` value `updateNodeStatus` constructs from system info:
capacity and allocatable from the runtime report, `Ready` condition true. -/
def mkNode (info : SystemInfo) : Node :=
  { name := "local-node",
    capacityCPU := info.ncpu, capacityMemory := info.memTotal,
    allocatableCPU := info.ncpu, allocatableMemory := info.memTotal,
    ready := true,
    kernelVersion := info.kernelVersion, osImage := info.operatingSystem,
    runtimeVersion := info.runtimeVersion, architecture := info.architecture,
    operatingSystem := info.operatingSystem }

/-- Embeds `(s *Server) updateNodeStatus`: `none` embeds a failed
`GetSystemInfo` call (the function logs and returns without touching the
maps); on success the node is installed at the fixed key `local-node`.
No storage operation is ever requested. -/
def updateNodeStatus (sysInfo : Option SystemInfo) (st : ServerState) :
    ServerState × List StorageOp :=
  match sysInfo with
  | none => (st, [])
  | some info =>
    ({ st with nodes := insertAL st.nodes "local-node" (mkNode info) }, [])

end Synthesis

namespace Synthesis

/-! Section: Support lemmas -/

theorem lookupAL_updateAL_self {α : Type} (m : List (String × α)) (k : String)
    (f : α → α) (v : α) (h : lookupAL m k = some v) :
    lookupAL (updateAL m k f) k = some (f v) := by
  induction m with
  | nil => simp [lookupAL] at h
  | cons hd tl ih =>
    obtain ⟨k', v'⟩ := hd
    by_cases hk : k' = k
    · simp [lookupAL, hk] at h
      simp [updateAL, lookupAL, hk, h]
    · simp [lookupAL, hk] at h
      simp [updateAL, lookupAL, hk, ih h]

/-! Section: C5 — accepted resources survive persist failures -/

/-- C5: for creates and updates of pods and deployments, the handler
installs the defaulted resource in the in-memory map and reports success,
and a subsequent read returns the resource — whatever the outcome of the
best-effort durable write (`persistFails` flag). -/
theorem create_update_succeed_despite_persist_failure
    (st : ServerState) (pod : Pod) (d : Deployment) (name : String)
    (now : Nat) (b : Bool) :
    ((createPodHandler st pod now b).2.2 = (201, setDefaultsForPod now pod) ∧
      getPodHandler (createPodHandler st pod now b).1 (setDefaultsForPod now pod).name =
        some (setDefaultsForPod now pod) ∧
      createPodHandler st pod now true = createPodHandler st pod now false) ∧
    ((createDeploymentHandler st d now b).2.2 = (201, setDefaultsForDeployment now d) ∧
      getDeploymentHandler (createDeploymentHandler st d now b).1
          (setDefaultsForDeployment now d).name =
        some (setDefaultsForDeployment now d) ∧
      createDeploymentHandler st d now true = createDeploymentHandler st d now false) ∧
    ((updatePodHandler st name pod now b).2.2 =
        (200, setDefaultsForPod now { pod with name := name }) ∧
      getPodHandler (updatePodHandler st name pod now b).1 name =
        some (setDefaultsForPod now { pod with name := name })) ∧
    ((updateDeploymentHandler st name d now b).2.2 =
        (200, setDefaultsForDeployment now { d with name := name }) ∧
      getDeploymentHandler (updateDeploymentHandler st name d now b).1 name =
        some (setDefaultsForDeployment now { d with name := name })) := by
  refine ⟨⟨rfl, ?_, rfl⟩, ⟨rfl, ?_, rfl⟩, ⟨rfl, ?_⟩, ⟨rfl, ?_⟩⟩
  · exact lookupAL_insertAL_self ..
  · exact lookupAL_insertAL_self ..
  · exact lookupAL_insertAL_self ..
  · exact lookupAL_insertAL_self ..

/-! Section: C7 — node status reporter -/

/-- C7: a failed system-info call leaves the state untouched (no node is
written that tick); a successful call overwrites exactly the `local-node`
entry with the runtime's reported capacities and a true `Ready`
condition. -/
theorem node_reporter_local_node
    (st : ServerState) (info : SystemInfo) (k : String) :
    updateNodeStatus none st = (st, []) ∧
    lookupAL (updateNodeStatus (some info) st).1.nodes "local-node" =
      some (mkNode info) ∧
    ((mkNode info).ready = true ∧ (mkNode info).name = "local-node" ∧
      (mkNode info).capacityCPU = info.ncpu ∧
      (mkNode info).capacityMemory = info.memTotal) ∧
    (k ≠ "local-node" →
      lookupAL (updateNodeStatus (some info) st).1.nodes k = lookupAL st.nodes k) ∧
    ((updateNodeStatus (some info) st).1.pods = st.pods ∧
      (updateNodeStatus (some info) st).1.deployments = st.deployments ∧
      (updateNodeStatus (some info) st).1.statefulsets = st.statefulsets ∧
      (updateNodeStatus (some info) st).1.services = st.services) := by
  refine ⟨rfl, lookupAL_insertAL_self .., ⟨rfl, rfl, rfl, rfl⟩, ?_, rfl, rfl, rfl, rfl⟩
  intro hk
  exact lookupAL_insertAL_ne _ _ _ _ hk

/-- Witness for C7 at a concrete system-info report. -/
theorem node_reporter_local_node_witness :
    lookupAL (updateNodeStatus (some ⟨4, 8589934592, "6.1", "linux", "amd64", "v1.7"⟩)
        {}).1.nodes "local-node" =
      some (mkNode ⟨4, 8589934592, "6.1", "linux", "amd64", "v1.7"⟩) ∧
    lookupAL (updateNodeStatus (some ⟨4, 8589934592, "6.1", "linux", "amd64", "v1.7"⟩)
        {}).1.nodes "other-node" = lookupAL ({} : ServerState).nodes "other-node" :=
  ⟨(node_reporter_local_node {} _ "other-node").2.1,
   (node_reporter_local_node {} _ "other-node").2.2.2.1 (by decide)⟩

/-! Section: C9 — scaling an absent workload -/

/-- C9: scaling a deployment or statefulset whose name is not in the store
answers the requested replica count as a success and leaves the whole
in-memory state (and the snapshot store: no write is requested)
unchanged. -/
theorem scale_absent_name_succeeds_unchanged
    (st : ServerState) (name : String) (replicas : Int)
    (hd : lookupAL st.deployments name = none)
    (hs : lookupAL st.statefulsets name = none) :
    scaleDeploymentHandler st name replicas = (st, [], { replicas := replicas }) ∧
    scaleStatefulSetHandler st name replicas = (st, [], { replicas := replicas }) := by
  constructor
  · simp only [scaleDeploymentHandler, updateAL_of_lookup_none _ _ _ hd]
  · simp only [scaleStatefulSetHandler, updateAL_of_lookup_none _ _ _ hs]

/-- Witness for C9: a store holding only deployment `web` is untouched by
scaling the absent name `ghost`. -/
theorem scale_absent_name_succeeds_unchanged_witness :
    scaleDeploymentHandler { deployments := [("web", { name := "web" })] } "ghost" 5 =
      ({ deployments := [("web", { name := "web" })] }, [], { replicas := 5 }) ∧
    scaleStatefulSetHandler { deployments := [("web", { name := "web" })] } "ghost" 5 =
      ({ deployments := [("web", { name := "web" })] }, [], { replicas := 5 }) :=
  scale_absent_name_succeeds_unchanged
    { deployments := [("web", { name := "web" })] } "ghost" 5 (by decide) (by decide)

/-! Section: C1 — ownership labels vs. the reconciler's listing filter -/

/-- C1 (failing input evaluated): the reconciler lists a deployment's
containers by the label `synthesis.deployment=<name>`, but neither driver's
`CreateContainer` ever applies that label — containerd applies
`synthesis.pod`, `synthesis.container` and `managed-by`, docker applies the
two synthesis labels plus the configured defaults. A container the
reconciler creates for deployment `web` therefore never matches the next
tick's listing, so it is never counted as `actual`. -/
theorem created_containers_never_match_owner_filter :
    lookupAL (Containerd.createLabels "web-0" "nginx") "synthesis.deployment" = none ∧
    lookupAL (Docker.createLabels "web-0" "nginx" mainDefaultLabels)
      "synthesis.deployment" = none ∧
    Containerd.matchesFilters
      { id := "web-0-nginx", name := "web-0-nginx", image := "nginx:1.25",
        status := "running", labels := Containerd.createLabels "web-0" "nginx" }
      (deploymentFilter "web") = false ∧
    List.filter (fun c => Containerd.matchesFilters c (deploymentFilter "web"))
      [{ id := "web-0-nginx", name := "web-0-nginx", image := "nginx:1.25",
         status := "running", labels := Containerd.createLabels "web-0" "nginx" }] = [] ∧
    createdPods (reconcileDeployment "web" (some 1)
      [{ name := "nginx", image := "nginx:1.25" }] []) = ["web-0"] := by
  decide

/-! Section: C2 — ordinal assignment on scale-up -/

/-- C2 counterexample: with pods at ordinals 1 and 2 already running and 3
desired, the code creates the pod name `web-2` (ordinal = |actual| + i =
2), which collides with the existing pod `web-2`; the claim's lowest unused
slot in [0, 3) is 0, i.e. `web-0`. -/
theorem deployment_scaleup_ordinal_collision :
    createdPods (reconcileDeployment "web" (some 3)
      [{ name := "nginx", image := "nginx:1.25" }]
      [{ id := "c1", name := "web-1-nginx", labels := [("synthesis.pod", "web-1")] },
       { id := "c2", name := "web-2-nginx", labels := [("synthesis.pod", "web-2")] }]) =
      ["web-2"] ∧
    specLowestUnusedSlot [1, 2] 3 = some 0 ∧
    labelGet [("synthesis.pod", "web-2")] "synthesis.pod" = "web-2" := by
  decide

/-! Section: C6 — selection order on statefulset scale-down -/

/-- C6 counterexample: with containers for pods `db-0` (id `A`, listed
first) and `db-1` (id `B`) and 1 desired replica, the code stops and
removes `A` — the lowest ordinal, not the highest as the claim states; `B`
is untouched. -/
theorem statefulset_scaledown_removes_first_listed :
    reconcileStatefulSet "db" (some 1) []
      [{ id := "A", name := "db-0-pg", labels := [("synthesis.pod", "db-0")] },
       { id := "B", name := "db-1-pg", labels := [("synthesis.pod", "db-1")] }] =
      [.stopContainer "A" 30, .removeContainer "A"] ∧
    labelGet [("synthesis.pod", "db-0")] "synthesis.pod" = "db-0" ∧
    labelGet [("synthesis.pod", "db-1")] "synthesis.pod" = "db-1" := by
  decide

/-- C6 as amended: on scale-down the statefulset reconciler selects the
first `|actual| − desired` containers in runtime listing order (no ordinal
preference), and stops each with a 30-second graceful timeout before
removing it. -/
theorem statefulset_scaledown_commands (name : String) (replicas : Option Int)
    (t : List ContainerSpec) (current : List ContainerInfo)
    (h : replicas.getD 1 < (current.length : Int)) :
    reconcileStatefulSet name replicas t current =
      (current.take (((current.length : Int) - replicas.getD 1).toNat)).flatMap
        fun c => [.stopContainer c.id 30, .removeContainer c.id] := by
  unfold reconcileStatefulSet
  have h₁ : ¬ ((current.length : Int) < replicas.getD 1) := by omega
  simp [h, h₁]

/-- Witness for the amended C6 at two listed containers and 1 desired. -/
theorem statefulset_scaledown_commands_witness :
    reconcileStatefulSet "cache" (some 1) []
      [{ id := "X", name := "cache-0-redis" }, { id := "Y", name := "cache-1-redis" }] =
      (([{ id := "X", name := "cache-0-redis" },
         { id := "Y", name := "cache-1-redis" }] : List ContainerInfo).take
        ((((2 : Nat) : Int) - 1).toNat)).flatMap
        fun c => [.stopContainer c.id 30, .removeContainer c.id] :=
  statefulset_scaledown_commands "cache" (some 1) [] _ (by decide)

theorem createdPods_append (a b : List RuntimeCmd) :
    createdPods (a ++ b) = createdPods a ++ createdPods b := by
  induction a with
  | nil => rfl
  | cons c rest ih => cases c <;> simp [createdPods, ih]

theorem createdPods_flatMap {α : Type} (l : List α) (f : α → List RuntimeCmd) :
    createdPods (l.flatMap f) = l.flatMap fun x => createdPods (f x) := by
  induction l with
  | nil => rfl
  | cons x rest ih => simp [List.flatMap_cons, createdPods_append, ih]

theorem createdPods_createPodFromTemplate (n : String) (t : List ContainerSpec)
    (k : Nat) :
    createdPods (createPodFromTemplate n t k) =
      t.map fun _ => n ++ "-" ++ toString k := by
  induction t with
  | nil => rfl
  | cons cs rest ih =>
    simp only [createPodFromTemplate, List.flatMap_cons] at ih ⊢
    simp [createdPods, createdPods_append, ih]

/-- C2 as amended: on scale-up the `i`-th new pod (`i` from 0) is named
`<name>-<|actual| + i>` — ordinals continue from the count of listed
containers and are not gap-filling, so they can collide with existing pod
names when existing ordinals have gaps. (The equation also covers the
non-scale-up branches, where no pod is created.) -/
theorem reconcile_creates_sequential_ordinals (name : String)
    (replicas : Option Int) (t : List ContainerSpec)
    (current : List ContainerInfo) :
    createdPods (reconcileDeployment name replicas t current) =
      (List.range ((replicas.getD 1) - (current.length : Int)).toNat).flatMap
        fun i => t.map fun _ => name ++ "-" ++ toString (current.length + i) := by
  unfold reconcileDeployment
  by_cases h₁ : (current.length : Int) < replicas.getD 1
  · have h₂ : ¬ (replicas.getD 1 < (current.length : Int)) := by omega
    simp only [h₁, h₂, if_true, if_false, List.append_nil]
    rw [createdPods_flatMap]
    simp [createdPods_createPodFromTemplate]
  · have h₃ : ((replicas.getD 1) - (current.length : Int)).toNat = 0 := by omega
    by_cases h₂ : replicas.getD 1 < (current.length : Int)
    · simp only [h₁, h₂, if_true, if_false, List.nil_append, h₃, List.range_zero,
        List.flatMap_nil]
      rw [createdPods_flatMap]
      simp [createdPods]
    · simp [h₁, h₂, h₃, createdPods]

/-! Section: C3 — service status update -/

/-- C3 counterexample: a ClusterIP service whose selector matches 3 managed
containers: the reconciler computes the 3 targets, but the stored service
is left unchanged — its status holds no endpoints. -/
theorem clusterip_service_status_not_updated :
    (findTargetContainers
      [{ id := "a", name := "web-0-nginx",
         labels := [("app", "web"), ("managed-by", "synthesis")] },
       { id := "b", name := "web-1-nginx",
         labels := [("app", "web"), ("managed-by", "synthesis")] },
       { id := "c", name := "web-2-nginx",
         labels := [("app", "web"), ("managed-by", "synthesis")] }]
      [("app", "web")]).length = 3 ∧
    reconcileService [("web-svc", { name := "web-svc", selector := [("app", "web")] })]
      [{ id := "a", name := "web-0-nginx",
         labels := [("app", "web"), ("managed-by", "synthesis")] },
       { id := "b", name := "web-1-nginx",
         labels := [("app", "web"), ("managed-by", "synthesis")] },
       { id := "c", name := "web-2-nginx",
         labels := [("app", "web"), ("managed-by", "synthesis")] }]
      { name := "web-svc", selector := [("app", "web")] } =
      [("web-svc", { name := "web-svc", selector := [("app", "web")] })] ∧
    ({ name := "web-svc", selector := [("app", "web")] } : Service).ingress = [] := by
  decide

/-- C3 as amended: the service reconciler resolves the selector against the
managed containers (a container matches when each selector pair equals its
label under Go map indexing), but the stored status is updated only for
NodePort services — and then to the single fixed ingress `127.0.0.1`,
independent of the computed endpoints; every other service type leaves the
stored services untouched. -/
theorem service_status_nodeport_only
    (services : List (String × Service)) (all : List ContainerInfo)
    (svc : Service) :
    (svc.type ≠ .nodePort → reconcileService services all svc = services) ∧
    (∀ s, svc.type = .nodePort → lookupAL services svc.name = some s →
      lookupAL (reconcileService services all svc) svc.name =
        some { s with ingress := ["127.0.0.1"] }) ∧
    (∀ c, c ∈ findTargetContainers all svc.selector ↔
      (c ∈ all ∧ labelGet c.labels "managed-by" = "synthesis" ∧
        ∀ kv ∈ svc.selector, labelGet c.labels kv.1 = kv.2)) := by
  refine ⟨?_, ?_, ?_⟩
  · intro h
    unfold reconcileService updateServiceStatus
    cases hl : lookupAL services svc.name with
    | none => rfl
    | some s => simp [h]
  · intro s htype hl
    unfold reconcileService updateServiceStatus
    rw [hl, if_pos htype]
    exact lookupAL_updateAL_self _ _ _ _ hl
  · intro c
    simp only [findTargetContainers, List.mem_filter, Containerd.matchesFilters,
      managedFilter, matchesSelector, List.all_cons, List.all_nil, List.isEmpty_nil,
      Bool.and_true, Bool.true_or, List.all_eq_true, beq_iff_eq, and_assoc]

/-- Witness for the amended C3: a ClusterIP service is left unchanged, a
NodePort service present in the map gets the fixed ingress. -/
theorem service_status_nodeport_only_witness :
    reconcileService [("cip", { name := "cip" })] [] { name := "cip" } =
      [("cip", { name := "cip" })] ∧
    lookupAL (reconcileService [("np", { name := "np", type := .nodePort })] []
        { name := "np", type := .nodePort }) "np" =
      some { ({ name := "np", type := .nodePort } : Service) with
             ingress := ["127.0.0.1"] } :=
  ⟨(service_status_nodeport_only [("cip", { name := "cip" })] [] { name := "cip" }).1
     (by decide),
   (service_status_nodeport_only [("np", { name := "np", type := .nodePort })] []
       { name := "np", type := .nodePort }).2.1
     { name := "np", type := .nodePort } rfl (by decide)⟩

/-! Section: C4 — startup load of persisted state -/

/-- C4 counterexample: a snapshot state whose deployments directory fails
to read (pods read fine, with one unparseable file skipped): `loadState`
returns an error — `NewServer` and in turn server startup fail — instead of
treating the kind as empty and continuing. -/
theorem loadstate_dir_read_error_aborts :
    loadState
      { pods := ⟨some [("p1", some { name := "p1" }), ("bad", none)]⟩,
        deployments := ⟨none⟩,
        statefulsets := ⟨some []⟩,
        services := ⟨some []⟩,
        nodes := ⟨some []⟩ } =
      .error "failed to load deployments: failed to read directory" := by
  rfl

/-- C4 as amended: individual snapshot files that fail to parse are skipped
and loading continues, but a failure to read a kind's snapshot directory is
returned as an error from `loadState`, which aborts server startup. -/
theorem loadstate_skips_bad_files_but_dir_error_is_fatal (dirs : StoreDirs) :
    (∀ ps ds ss svcs,
      dirs.pods.entries = some ps → dirs.deployments.entries = some ds →
      dirs.statefulsets.entries = some ss → dirs.services.entries = some svcs →
      loadState dirs = .ok
        { pods := mapOfResources Pod.name (ps.filterMap Prod.snd),
          deployments := mapOfResources Deployment.name (ds.filterMap Prod.snd),
          statefulsets := mapOfResources StatefulSet.name (ss.filterMap Prod.snd),
          services := mapOfResources Service.name (svcs.filterMap Prod.snd),
          nodes := [] }) ∧
    (∀ ps, dirs.pods.entries = some ps → dirs.deployments.entries = none →
      loadState dirs = .error "failed to load deployments: failed to read directory") := by
  constructor
  · intro ps ds ss svcs h₁ h₂ h₃ h₄
    simp only [loadState, listKind, h₁, h₂, h₃, h₄]
  · intro ps h₁ h₂
    simp only [loadState, listKind, h₁, h₂]
    rfl

/-- Witness for the amended C4 at concrete snapshot directories. -/
theorem loadstate_skips_bad_files_but_dir_error_is_fatal_witness :
    loadState
      { pods := ⟨some [("p1", some { name := "p1" }), ("bad", none)]⟩,
        deployments := ⟨some []⟩, statefulsets := ⟨some []⟩,
        services := ⟨some []⟩, nodes := ⟨some []⟩ } =
      .ok
        { pods := mapOfResources Pod.name
            ([("p1", some { name := "p1" }), ("bad", none)].filterMap Prod.snd),
          deployments := mapOfResources Deployment.name
            (([] : List (String × Option Deployment)).filterMap Prod.snd),
          statefulsets := mapOfResources StatefulSet.name
            (([] : List (String × Option StatefulSet)).filterMap Prod.snd),
          services := mapOfResources Service.name
            (([] : List (String × Option Service)).filterMap Prod.snd),
          nodes := [] } :=
  (loadstate_skips_bad_files_but_dir_error_is_fatal
      { pods := ⟨some [("p1", some { name := "p1" }), ("bad", none)]⟩,
        deployments := ⟨some []⟩, statefulsets := ⟨some []⟩,
        services := ⟨some []⟩, nodes := ⟨some []⟩ }).1
    [("p1", some { name := "p1" }), ("bad", none)] [] [] [] rfl rfl rfl rfl

/-! Section: C8 — memory limit semantics -/

theorem parseDigits_digits (ds : List Char) (n : Nat) (h : parseDigits ds = some n) :
    ∀ c ∈ ds, 48 ≤ c.toNat ∧ c.toNat ≤ 57 := by
  induction ds generalizing n with
  | nil => simp [parseDigits] at h
  | cons c rest ih =>
    cases rest with
    | nil =>
      intro x hx
      simp only [List.mem_singleton] at hx
      subst hx
      unfold parseDigits digitVal at h
      by_cases hb : 48 ≤ x.toNat ∧ x.toNat ≤ 57
      · exact hb
      · simp [hb] at h
    | cons d rest' =>
      intro x hx
      simp only [parseDigits, Option.bind_eq_bind, Option.bind_eq_some] at h
      obtain ⟨dv, hdv, m, hm, -⟩ := h
      rcases List.mem_cons.mp hx with hx | hx
      · subst hx
        unfold digitVal at hdv
        by_cases hb : 48 ≤ x.toNat ∧ x.toNat ≤ 57
        · exact hb
        · simp [hb] at hdv
      · exact ih m hm x hx

theorem goParseInt64_split (s : String) (n : Int) (h : goParseInt64 s = some n) :
    ∃ m, parseDigits (splitSign s.data).2 = some m ∧
      n = (splitSign s.data).1 * m ∧ fitsInt64 n := by
  unfold goParseInt64 at h
  cases hp : parseDigits (splitSign s.data).2 with
  | none => rw [hp] at h; simp at h
  | some m =>
    rw [hp] at h
    by_cases hf : fitsInt64 ((splitSign s.data).1 * m)
    · simp only [hf, if_true, Option.some.injEq] at h
      exact ⟨m, rfl, h.symm, h ▸ hf⟩
    · simp [hf] at h

theorem goParseInt64_chars (s : String) (n : Int) (h : goParseInt64 s = some n) :
    ∀ c ∈ s.data, c = '+' ∨ c = '-' ∨ (48 ≤ c.toNat ∧ c.toNat ≤ 57) := by
  obtain ⟨m, hm, -, -⟩ := goParseInt64_split s n h
  intro c hc
  cases hcs : s.data with
  | nil => rw [hcs] at hc; simp at hc
  | cons c₀ rest =>
    rw [hcs] at hc hm
    by_cases h₀ : c₀ = '+'
    · rw [splitSign, if_pos h₀] at hm
      rcases List.mem_cons.mp hc with hc | hc
      · exact .inl (hc.trans h₀)
      · exact .inr (.inr (parseDigits_digits rest m hm c hc))
    · by_cases h₁ : c₀ = '-'
      · rw [splitSign, if_neg h₀, if_pos h₁] at hm
        rcases List.mem_cons.mp hc with hc | hc
        · exact .inr (.inl (hc.trans h₁))
        · exact .inr (.inr (parseDigits_digits rest m hm c hc))
      · rw [splitSign, if_neg h₀, if_neg h₁] at hm
        exact .inr (.inr (parseDigits_digits (c₀ :: rest) m hm c hc))

theorem hasSuffix_mem (cs suf : List Char) (h : hasSuffix cs suf = true) :
    ∀ c ∈ suf, c ∈ cs := by
  unfold hasSuffix at h
  simp only [Bool.and_eq_true, decide_eq_true_eq, beq_iff_eq] at h
  intro c hc
  rw [← h.2] at hc
  exact List.drop_subset _ _ hc

theorem goParseInt64_no_unit_suffix (s : String) (n : Int)
    (h : goParseInt64 s = some n) (b : Char) :
    hasSuffix s.data [b, 'i'] = false := by
  rw [Bool.eq_false_iff]
  intro hcontra
  have hi : 'i' ∈ s.data := hasSuffix_mem _ _ hcontra 'i' (by simp)
  rcases goParseInt64_chars s n h 'i' hi with h₁ | h₁ | h₁
  · exact absurd h₁ (by decide)
  · exact absurd h₁ (by decide)
  · exact absurd h₁ (by decide)

theorem hasSuffix_append_self (bs : List Char) (a b : Char) :
    hasSuffix (bs ++ [a, b]) [a, b] = true := by
  simp [hasSuffix, List.length_append, Nat.add_sub_cancel, List.drop_left]

theorem hasSuffix_append_ne (bs : List Char) (a b a' b' : Char) (h : a ≠ a') :
    hasSuffix (bs ++ [a, b]) [a', b'] = false := by
  rw [Bool.eq_false_iff]
  intro hcontra
  unfold hasSuffix at hcontra
  simp only [Bool.and_eq_true, decide_eq_true_eq, beq_iff_eq, List.length_append,
    List.length_cons, List.length_nil, Nat.add_sub_cancel] at hcontra
  rw [List.drop_left] at hcontra
  simp only [List.cons.injEq, and_true] at hcontra
  exact h hcontra.2.1

theorem memSplit_append_Ki (bs : List Char) :
    memSplit (bs ++ ['K', 'i']) = (1024, bs) := by
  unfold memSplit
  rw [hasSuffix_append_self, if_pos rfl]
  simp [List.length_append, Nat.add_sub_cancel, List.take_left]

theorem memSplit_append_Mi (bs : List Char) :
    memSplit (bs ++ ['M', 'i']) = (1024 * 1024, bs) := by
  unfold memSplit
  rw [hasSuffix_append_ne bs 'M' 'i' 'K' 'i' (by decide), hasSuffix_append_self]
  simp [List.length_append, Nat.add_sub_cancel, List.take_left]

theorem memSplit_append_Gi (bs : List Char) :
    memSplit (bs ++ ['G', 'i']) = (1024 * 1024 * 1024, bs) := by
  unfold memSplit
  rw [hasSuffix_append_ne bs 'G' 'i' 'K' 'i' (by decide),
    hasSuffix_append_ne bs 'G' 'i' 'M' 'i' (by decide), hasSuffix_append_self]
  simp [List.length_append, Nat.add_sub_cancel, List.take_left]

theorem string_mk_data (s : String) : String.mk s.data = s := by
  cases s
  rfl

/-- C8 counterexample: `parseMemoryLimit` accepts `9007199254740992Gi`
(2^53 binary gibibytes) but the Go `int64` product `2^53 * 2^30 = 2^83`
wraps to 0, so the parsed byte value is 0 and not the leading integer times
the `Gi` multiplier. -/
theorem memory_parse_overflow_wraps :
    Docker.parseMemoryLimit "9007199254740992Gi" = some 0 ∧
    (9007199254740992 : Int) * (1024 * 1024 * 1024) ≠ 0 ∧
    Containerd.parseMemoryLimit "9007199254740992Gi" = some 0 := by
  decide

/-- C8 as amended: for any decimal body accepted by Go's `int64` parse, the
bare body parses to its integer value, and each suffixed form `Ki`, `Mi`,
`Gi` parses to the integer times 1024, 1024², 1024³ respectively —
*provided the product fits in a signed 64-bit integer* (on overflow the
driver returns the wrapped product instead). Both drivers agree. -/
theorem parse_memory_limit_suffix_semantics (body : String) (n : Int)
    (hn : goParseInt64 body = some n) :
    Docker.parseMemoryLimit body = some n ∧
    (fitsInt64 (n * 1024) →
      Docker.parseMemoryLimit (body ++ "Ki") = some (n * 1024)) ∧
    (fitsInt64 (n * (1024 * 1024)) →
      Docker.parseMemoryLimit (body ++ "Mi") = some (n * (1024 * 1024))) ∧
    (fitsInt64 (n * (1024 * 1024 * 1024)) →
      Docker.parseMemoryLimit (body ++ "Gi") = some (n * (1024 * 1024 * 1024))) ∧
    (∀ s, Containerd.parseMemoryLimit s = Docker.parseMemoryLimit s) := by
  have hfits : fitsInt64 n := (goParseInt64_split body n hn).choose_spec.2.2
  refine ⟨?_, ?_, ?_, ?_, fun s => rfl⟩
  · unfold Docker.parseMemoryLimit
    have hsplit : memSplit body.data = (1, body.data) := by
      unfold memSplit
      rw [goParseInt64_no_unit_suffix body n hn 'K',
        goParseInt64_no_unit_suffix body n hn 'M',
        goParseInt64_no_unit_suffix body n hn 'G']
      simp
    rw [hsplit]
    simp only [string_mk_data, hn]
    rw [mul_one, int64wrap_of_fits n hfits]
  · intro hfit
    unfold Docker.parseMemoryLimit
    have hdata : (body ++ "Ki").data = body.data ++ ['K', 'i'] := by
      rw [String.data_append]
    rw [hdata, memSplit_append_Ki]
    simp only [string_mk_data, hn]
    rw [int64wrap_of_fits _ hfit]
  · intro hfit
    unfold Docker.parseMemoryLimit
    have hdata : (body ++ "Mi").data = body.data ++ ['M', 'i'] := by
      rw [String.data_append]
    rw [hdata, memSplit_append_Mi]
    simp only [string_mk_data, hn]
    rw [int64wrap_of_fits _ hfit]
  · intro hfit
    unfold Docker.parseMemoryLimit
    have hdata : (body ++ "Gi").data = body.data ++ ['G', 'i'] := by
      rw [String.data_append]
    rw [hdata, memSplit_append_Gi]
    simp only [string_mk_data, hn]
    rw [int64wrap_of_fits _ hfit]

/-- Witness for the amended C8 at the body `512`. -/
theorem parse_memory_limit_suffix_semantics_witness :
    Docker.parseMemoryLimit "512" = some 512 ∧
    Docker.parseMemoryLimit ("512" ++ "Ki") = some (512 * 1024) ∧
    Docker.parseMemoryLimit ("512" ++ "Mi") = some (512 * (1024 * 1024)) ∧
    Docker.parseMemoryLimit ("512" ++ "Gi") = some (512 * (1024 * 1024 * 1024)) :=
  ⟨(parse_memory_limit_suffix_semantics "512" 512 (by decide)).1,
   (parse_memory_limit_suffix_semantics "512" 512 (by decide)).2.1 (by decide),
   (parse_memory_limit_suffix_semantics "512" 512 (by decide)).2.2.1 (by decide),
   (parse_memory_limit_suffix_semantics "512" 512 (by decide)).2.2.2.1 (by decide)⟩

/-! Section: C10 — nodes live only in memory -/

/-- C10: the node status reporter requests no durable write, and a startup
load populates only the pod, deployment, statefulset and service maps — the
nodes map after any successful load is empty, so no Node survives a
restart. -/
theorem nodes_never_persisted
    (sysInfo : Option SystemInfo) (st : ServerState) (dirs : StoreDirs)
    (m : ServerState) :
    (updateNodeStatus sysInfo st).2 = [] ∧
    (loadState dirs = .ok m → m.nodes = []) := by
  constructor
  · cases sysInfo <;> rfl
  · intro h
    unfold loadState at h
    cases hp : listKind dirs.pods with
    | error e => rw [hp] at h; exact absurd h (by simp)
    | ok ps =>
      rw [hp] at h
      cases hd : listKind dirs.deployments with
      | error e => rw [hd] at h; exact absurd h (by simp)
      | ok ds =>
        rw [hd] at h
        cases hss : listKind dirs.statefulsets with
        | error e => rw [hss] at h; exact absurd h (by simp)
        | ok ss =>
          rw [hss] at h
          cases hsv : listKind dirs.services with
          | error e => rw [hsv] at h; exact absurd h (by simp)
          | ok svcs =>
            rw [hsv] at h
            simp only [Except.ok.injEq] at h
            rw [← h]

/-- Witness for C10 at a concrete snapshot directory layout. -/
theorem nodes_never_persisted_witness :
    (updateNodeStatus none {}).2 = [] ∧
    ({ pods := [], deployments := [], statefulsets := [], services := [],
       nodes := [] } : ServerState).nodes = [] :=
  ⟨(nodes_never_persisted none {} ⟨⟨some []⟩, ⟨some []⟩, ⟨some []⟩, ⟨some []⟩, ⟨some []⟩⟩
      { pods := [], deployments := [], statefulsets := [], services := [], nodes := [] }).1,
   (nodes_never_persisted none {} ⟨⟨some []⟩, ⟨some []⟩, ⟨some []⟩, ⟨some []⟩, ⟨some []⟩⟩
      { pods := [], deployments := [], statefulsets := [], services := [], nodes := [] }).2
     rfl⟩

end Synthesis
